import Mathlib

/-!
# Index-based views of hpp-pinocchio (`src/device-object-vector.cc`)

A shallow embedding of the three view collections defined in
`device-object-vector.cc`:

* `DeviceObjectVector`: all the geometries of a device,
* `ObjectVector`: the inner or outer geometries attached to one joint,
* `JointVector`: the joints of a device, the universe joint excluded.

Embedding conventions.

* A device pointer (`DevicePtr_t`, a shared pointer) is `Option Nat`: `none`
  is the null pointer, `some a` points to the device stored at address `a` of
  the heap. A shared pointer that is not null always owns a live object, so
  the heap is a total map from addresses to devices.
* The outcome of every operation is a function of the view and of the heap at
  the time of the call. The heap maps each joint to its lists of geometries; a
  joint without an entry in a table has the empty list. The one write a
  method can make, the insertion of an empty entry by a table subscript in
  `ObjectVector::size`, does not change these lists; it is modelled apart, on
  tables that keep their keys.
* `assert(c)` is the debug build's check: it continues when `c` holds and
  aborts otherwise. Operations return `Except Abort _`; `Abort.assertion` is a
  failed assertion, `Abort.nullDereference` is the dereference of a null
  device pointer (undefined behaviour in C++, kept apart from every normal
  result here).
* `size_type` is the signed index type; it is modelled by `Int`. The counts it
  is compared with are a joint count and sizes of containers held in memory,
  far below the range of a machine word, and the only arithmetic is
  `njoint - 1` and `i + 1` with `i < njoint - 1`, so no operation leaves the
  range of the machine type.
* The header `device-object-vector.hh` is not among the sources. What the
  source file needs from it is either a parameter (the index supplied when
  `selfAssert()` is called without argument) or modelled from the spec
  (`ibegin`, the handle classes); each such definition says so.
-/

namespace hpp.pinocchio

/-! ## Data model -/

/-- The signed index type used by the views. -/
abbrev size_type := Int

/-- The part of the geometry model read by the views: the total number of
geometries and, for each joint index, the lists of inner and outer geometry
indices. -/
structure GeometryModel where
  ngeoms : Nat
  innerObjects : Nat → List Nat
  outerObjects : Nat → List Nat

/-- The part of the kinematic model read by the views: the number of joints,
the universe joint included (a signed `int` in the model). -/
structure Model where
  njoint : Int

/-- A device: its kinematic model and its geometry model. -/
structure Device where
  model : Model
  geomModel : GeometryModel

/-- A device pointer: `none` is null, `some a` is the address of a device. -/
abbrev DevicePtr_t := Option Nat

/-- The heap: the device each address refers to. -/
abbrev Heap := Nat → Device

/-- The selector of `ObjectVector`. -/
inductive InOutType where
  | INNER
  | OUTER
deriving DecidableEq, Repr

/-- The two ways an operation stops without a result. -/
inductive Abort where
  | assertion
  | nullDereference
deriving DecidableEq, Repr

/-- Modelled from the spec: the class `CollisionObject` (collision-object.hh)
is not among the sources. A geometry handle is the tuple of arguments its
constructor receives: `(device, index)` from the device view and
`(device, joint index, index, mode)` from the joint-scoped view. -/
inductive CollisionObject where
  | ofGeom (devicePtr : DevicePtr_t) (geom : size_type)
  | ofJointGeom (devicePtr : DevicePtr_t) (jointIndex : Nat) (geomInJoint : size_type)
      (inOutType : InOutType)
deriving DecidableEq, Repr

/-- Modelled from the spec: the class `Joint` (joint.hh) is not among the
sources. A joint handle is the pair `(device, internal joint index)` its
constructor receives. -/
structure Joint where
  devicePtr : DevicePtr_t
  index : size_type
deriving DecidableEq, Repr

/-- The debug-build `assert`. -/
def assert (c : Bool) : Except Abort Unit :=
  if c then .ok () else .error Abort.assertion

/-- The expression `devicePtr->`: the device a pointer refers to. -/
def deref (heap : Heap) (p : DevicePtr_t) : Except Abort Device :=
  match p with
  | some a => .ok (heap a)
  | none => .error Abort.nullDereference

/-- The cast `int(jointIndex)` of an unsigned joint index to a 32-bit signed
integer. -/
def toInt32 (n : Nat) : Int :=
  (((n : Int) + 2 ^ 31) % 2 ^ 32) - 2 ^ 31

/-- Whether an operation returned a value (it neither failed an assertion nor
dereferenced a null pointer). -/
def accepted {α : Type} (r : Except Abort α) : Bool :=
  match r with
  | .ok _ => true
  | .error _ => false

/-! ## DeviceObjectVector -/

/-- The device geometry view: a device pointer. -/
structure DeviceObjectVector where
  devicePtr : DevicePtr_t
deriving DecidableEq, Repr

/-- `DeviceObjectVector::size`. -/
def DeviceObjectVector.size (v : DeviceObjectVector) (heap : Heap) : Except Abort size_type := do
  let d ← deref heap v.devicePtr
  pure (d.geomModel.ngeoms : Int)

/-- `DeviceObjectVector::selfAssert(i)`. -/
def DeviceObjectVector.selfAssert (v : DeviceObjectVector) (heap : Heap) (i : size_type) :
    Except Abort Unit := do
  assert v.devicePtr.isSome
  let n ← v.size heap
  assert (decide (i < n))

/-- `DeviceObjectVector::at(i)`, mutable overload. The body calls
`selfAssert()` with no argument; the declaration that supplies the omitted
argument is in the header, which is not among the sources, so the value
`dflt` it supplies is a parameter. -/
def DeviceObjectVector.at_ (dflt : size_type) (v : DeviceObjectVector) (heap : Heap)
    (i : size_type) : Except Abort CollisionObject := do
  v.selfAssert heap dflt
  pure (CollisionObject.ofGeom v.devicePtr i)

/-- `DeviceObjectVector::at(i) const`, the read-only overload. -/
def DeviceObjectVector.at_const (dflt : size_type) (v : DeviceObjectVector) (heap : Heap)
    (i : size_type) : Except Abort CollisionObject := do
  v.selfAssert heap dflt
  pure (CollisionObject.ofGeom v.devicePtr i)

/-! ## ObjectVector -/

/-- The joint-scoped geometry view: a device pointer, a joint index and the
inner or outer selector. -/
structure ObjectVector where
  devicePtr : DevicePtr_t
  jointIndex : Nat
  inOutType : InOutType
deriving DecidableEq, Repr

/-- `ObjectVector::at(i)`, mutable overload. -/
def ObjectVector.at_ (v : ObjectVector) (_heap : Heap) (i : size_type) :
    Except Abort CollisionObject :=
  pure (CollisionObject.ofJointGeom v.devicePtr v.jointIndex i v.inOutType)

/-- `ObjectVector::at(i) const`, the read-only overload. -/
def ObjectVector.at_const (v : ObjectVector) (_heap : Heap) (i : size_type) :
    Except Abort CollisionObject :=
  pure (CollisionObject.ofJointGeom v.devicePtr v.jointIndex i v.inOutType)

/-- `ObjectVector::size`. -/
def ObjectVector.size (v : ObjectVector) (heap : Heap) : Except Abort size_type := do
  let d ← deref heap v.devicePtr
  if v.inOutType = InOutType.INNER then
    pure ((d.geomModel.innerObjects v.jointIndex).length : Int)
  else
    pure ((d.geomModel.outerObjects v.jointIndex).length : Int)

/-- `ObjectVector::selfAssert(i)`. -/
def ObjectVector.selfAssert (v : ObjectVector) (heap : Heap) (i : size_type) :
    Except Abort Unit := do
  assert v.devicePtr.isSome
  let d ← deref heap v.devicePtr
  assert (decide (toInt32 v.jointIndex < d.model.njoint))
  let n ← v.size heap
  assert (decide (i < n))

/-! ## JointVector -/

/-- The joint view: a device pointer. -/
structure JointVector where
  devicePtr : DevicePtr_t
deriving DecidableEq, Repr

/-- Modelled from the spec: `ibegin` is inherited from the container base
class (fake-container.hh), which is not among the sources; the spec gives
`ibegin() → 0`, the first externally visible joint index. -/
def JointVector.ibegin (_v : JointVector) (_heap : Heap) : Except Abort size_type :=
  pure 0

/-- `JointVector::size`. -/
def JointVector.size (v : JointVector) (heap : Heap) : Except Abort size_type := do
  let d ← deref heap v.devicePtr
  pure (d.model.njoint - 1)

/-- `JointVector::iend`. -/
def JointVector.iend (v : JointVector) (heap : Heap) : Except Abort size_type :=
  v.size heap

/-- `JointVector::selfAssert(i)`. -/
def JointVector.selfAssert (v : JointVector) (heap : Heap) (i : size_type) :
    Except Abort Unit := do
  assert v.devicePtr.isSome
  let b ← v.ibegin heap
  assert (decide (i ≥ b))
  let e ← v.iend heap
  assert (decide (i < e))

/-- `JointVector::at(i)`, mutable overload. -/
def JointVector.at_ (v : JointVector) (heap : Heap) (i : size_type) : Except Abort Joint := do
  v.selfAssert heap i
  pure (Joint.mk v.devicePtr (i + 1))

/-- `JointVector::at(i) const`, the read-only overload. -/
def JointVector.at_const (v : JointVector) (heap : Heap) (i : size_type) :
    Except Abort Joint := do
  v.selfAssert heap i
  pure (Joint.mk v.devicePtr (i + 1))

/-! ## Concrete devices used in the examples -/

/-- A device with `njoint` joints, `ngeoms` geometries and, for every joint,
`inner` inner and `outer` outer geometries. -/
def mkDevice (njoint : Int) (ngeoms inner outer : Nat) : Device :=
  { model := { njoint := njoint },
    geomModel := { ngeoms := ngeoms,
                   innerObjects := fun _ => List.range inner,
                   outerObjects := fun _ => List.range outer } }

/-- A heap holding the same device at every address. -/
def constHeap (d : Device) : Heap := fun _ => d

/-! ## The methods in state-passing form

The methods that make no table subscript (every method but
`ObjectVector::size`), written as transitions of the state a call runs in: the
view object the method is called on and the heap. Their bodies read members,
dereference the device pointer and assert; the steps below are these three
operations. `ObjectVector::size`, which subscripts a table of the geometry
model, is written further down on a heap that records the keys of the
tables. -/

/-- The state a method of a view runs in: the view object and the heap. -/
structure State (V : Type) where
  view : V
  heap : Heap

/-- A method in state-passing form: from the state before the call, the
outcome of the call and the state after it. -/
def Method (V α : Type) : Type := State V → Except Abort α × State V

/-- A step that returns a value. -/
def Method.ret {V α : Type} (x : α) : Method V α := fun s => (.ok x, s)

/-- Sequencing: the second step runs in the state the first one leaves; a
step that aborts ends the call in the state it was reached in. -/
def Method.seq {V α β : Type} (m : Method V α) (f : α → Method V β) : Method V β := fun s =>
  match m s with
  | (.ok x, s1) => f x s1
  | (.error e, s1) => (.error e, s1)

instance instMonadMethod {V : Type} : Monad (Method V) where
  pure := Method.ret
  bind := Method.seq

/-- Read the members of the object the method is called on. -/
def Method.self {V : Type} : Method V V := fun s => (.ok s.view, s)

/-- The expression `p->` as a step: read the device `p` points to. -/
def Method.derefM {V : Type} (p : DevicePtr_t) : Method V Device := fun s =>
  (deref s.heap p, s)

/-- The debug-build `assert` as a step. -/
def Method.assertM {V : Type} (c : Bool) : Method V Unit := fun s => (assert c, s)

/-- `DeviceObjectVector::size` as a transition. -/
def DeviceObjectVector.sizeM : Method DeviceObjectVector size_type := do
  let v ← Method.self
  let d ← Method.derefM v.devicePtr
  pure (d.geomModel.ngeoms : Int)

/-- `DeviceObjectVector::selfAssert(i)` as a transition. -/
def DeviceObjectVector.selfAssertM (i : size_type) : Method DeviceObjectVector Unit := do
  let v ← Method.self
  Method.assertM v.devicePtr.isSome
  let n ← DeviceObjectVector.sizeM
  Method.assertM (decide (i < n))

/-- `DeviceObjectVector::at(i)` as a transition; `dflt` is the index supplied
for the omitted argument of `selfAssert()`. -/
def DeviceObjectVector.atM (dflt : size_type) (i : size_type) :
    Method DeviceObjectVector CollisionObject := do
  DeviceObjectVector.selfAssertM dflt
  let v ← Method.self
  pure (CollisionObject.ofGeom v.devicePtr i)

/-- `DeviceObjectVector::at(i) const` as a transition. -/
def DeviceObjectVector.atConstM (dflt : size_type) (i : size_type) :
    Method DeviceObjectVector CollisionObject := do
  DeviceObjectVector.selfAssertM dflt
  let v ← Method.self
  pure (CollisionObject.ofGeom v.devicePtr i)

/-- `ObjectVector::at(i)` as a transition. -/
def ObjectVector.atM (i : size_type) : Method ObjectVector CollisionObject := do
  let v ← Method.self
  pure (CollisionObject.ofJointGeom v.devicePtr v.jointIndex i v.inOutType)

/-- `ObjectVector::at(i) const` as a transition. -/
def ObjectVector.atConstM (i : size_type) : Method ObjectVector CollisionObject := do
  let v ← Method.self
  pure (CollisionObject.ofJointGeom v.devicePtr v.jointIndex i v.inOutType)

/-- `JointVector::ibegin` as a transition (modelled from the spec, as
`JointVector.ibegin`). -/
def JointVector.ibeginM : Method JointVector size_type :=
  pure 0

/-- `JointVector::size` as a transition. -/
def JointVector.sizeM : Method JointVector size_type := do
  let v ← Method.self
  let d ← Method.derefM v.devicePtr
  pure (d.model.njoint - 1)

/-- `JointVector::iend` as a transition. -/
def JointVector.iendM : Method JointVector size_type :=
  JointVector.sizeM

/-- `JointVector::selfAssert(i)` as a transition. -/
def JointVector.selfAssertM (i : size_type) : Method JointVector Unit := do
  let v ← Method.self
  Method.assertM v.devicePtr.isSome
  let b ← JointVector.ibeginM
  Method.assertM (decide (i ≥ b))
  let e ← JointVector.iendM
  Method.assertM (decide (i < e))

/-- `JointVector::at(i)` as a transition. -/
def JointVector.atM (i : size_type) : Method JointVector Joint := do
  JointVector.selfAssertM i
  let v ← Method.self
  pure (Joint.mk v.devicePtr (i + 1))

/-- `JointVector::at(i) const` as a transition. -/
def JointVector.atConstM (i : size_type) : Method JointVector Joint := do
  JointVector.selfAssertM i
  let v ← Method.self
  pure (Joint.mk v.devicePtr (i + 1))

/-! ## `ObjectVector::size` on keyed tables

`innerObjects` and `outerObjects` are declared by the geometry library, outside
the sources, as keyed containers (`std::map`) from a joint index to the list
of its geometries. `ObjectVector::size` reaches them through `devicePtr->`,
a pointer to a non-const device, and subscripts them with `[jointIndex]`; on
such a container the subscript inserts an empty entry for a key that has
none. The tables above, total lookups in which a joint without an entry has
the empty list, cannot tell that insertion; the definitions below keep the
keys. -/

/-- A keyed table: the entry of each joint index, `none` for a joint that has
no entry. -/
abbrev KeyedTable := Nat → Option (List Nat)

/-- The expression `m[j]` on a non-const keyed table: the entry of `j`, and
the table after the access, in which a missing entry has been inserted
empty. -/
def KeyedTable.subscript (m : KeyedTable) (j : Nat) : List Nat × KeyedTable :=
  match m j with
  | some l => (l, m)
  | none => ([], fun k => if k = j then some [] else m k)

/-- The lookup a keyed table stands for: a joint without an entry has no
geometry. -/
def KeyedTable.toLookup (m : KeyedTable) : Nat → List Nat :=
  fun j => (m j).getD []

/-- The geometry model with its tables as keyed containers. -/
structure KeyedGeometryModel where
  ngeoms : Nat
  innerObjects : KeyedTable
  outerObjects : KeyedTable

/-- A device whose geometry model keeps the keys of its tables. -/
structure KeyedDevice where
  model : Model
  geomModel : KeyedGeometryModel

/-- The heap of devices with keyed tables. -/
abbrev KeyedHeap := Nat → KeyedDevice

/-- The state `ObjectVector::size` runs in: the view and the heap. -/
structure KeyedState where
  view : ObjectVector
  heap : KeyedHeap

/-- The device a keyed device stands for, its tables read as lookups. -/
def KeyedDevice.toDevice (d : KeyedDevice) : Device :=
  { model := d.model,
    geomModel := { ngeoms := d.geomModel.ngeoms,
                   innerObjects := d.geomModel.innerObjects.toLookup,
                   outerObjects := d.geomModel.outerObjects.toLookup } }

/-- The heap a keyed heap stands for. -/
def KeyedHeap.toHeap (heap : KeyedHeap) : Heap :=
  fun a => (heap a).toDevice

/-- The keyed heap with the inner table of the device at address `a` replaced
by `m`. -/
def KeyedHeap.setInner (heap : KeyedHeap) (a : Nat) (m : KeyedTable) : KeyedHeap :=
  fun b =>
    if b = a then
      { model := (heap a).model,
        geomModel := { ngeoms := (heap a).geomModel.ngeoms,
                       innerObjects := m,
                       outerObjects := (heap a).geomModel.outerObjects } }
    else heap b

/-- The keyed heap with the outer table of the device at address `a` replaced
by `m`. -/
def KeyedHeap.setOuter (heap : KeyedHeap) (a : Nat) (m : KeyedTable) : KeyedHeap :=
  fun b =>
    if b = a then
      { model := (heap a).model,
        geomModel := { ngeoms := (heap a).geomModel.ngeoms,
                       innerObjects := (heap a).geomModel.innerObjects,
                       outerObjects := m } }
    else heap b

/-- `ObjectVector::size` as a transition on keyed tables: the mode is tested,
the device pointer dereferenced, the table of the mode subscripted at the
joint index (which may insert an entry) and the length of the entry
returned. -/
def ObjectVector.sizeM (s : KeyedState) : Except Abort size_type × KeyedState :=
  if s.view.inOutType = InOutType.INNER then
    match s.view.devicePtr with
    | none => (.error Abort.nullDereference, s)
    | some a =>
      let r := (s.heap a).geomModel.innerObjects.subscript s.view.jointIndex
      (.ok (r.1.length : Int), { view := s.view, heap := s.heap.setInner a r.2 })
  else
    match s.view.devicePtr with
    | none => (.error Abort.nullDereference, s)
    | some a =>
      let r := (s.heap a).geomModel.outerObjects.subscript s.view.jointIndex
      (.ok (r.1.length : Int), { view := s.view, heap := s.heap.setOuter a r.2 })

/-- A keyed device with `njoint` joints and `ngeoms` geometries in which the
only entry of each table is the one of joint 1, with `inner` and `outer`
geometries. -/
def mkKeyedDevice (njoint : Int) (ngeoms inner outer : Nat) : KeyedDevice :=
  { model := { njoint := njoint },
    geomModel := { ngeoms := ngeoms,
                   innerObjects := fun j => if j = 1 then some (List.range inner) else none,
                   outerObjects := fun j => if j = 1 then some (List.range outer) else none } }

/-- The heap `heap` with the device at address `a` replaced by `d`. -/
def Heap.set (heap : Heap) (a : Nat) (d : Device) : Heap :=
  fun b => if b = a then d else heap b

/-! ## Shared lemmas: the value of each check -/

/-- The check of the device view passes exactly for a non-null device whose
geometry count exceeds the tested index. -/
theorem deviceObjectVector_selfAssert_ok_iff (v : DeviceObjectVector) (heap : Heap)
    (i : Int) :
    v.selfAssert heap i = .ok () ↔
      ∃ a, v.devicePtr = some a ∧ i < ((heap a).geomModel.ngeoms : Int) := by
  rcases v with ⟨_ | a⟩
  · simp [DeviceObjectVector.selfAssert, assert, bind, Except.bind]
  · by_cases h : i < ((heap a).geomModel.ngeoms : Int) <;>
      simp [DeviceObjectVector.selfAssert, DeviceObjectVector.size, assert, deref, bind,
        Except.bind, pure, Except.pure, h]

/-- A failed check of the device view on a non-null device is a failed
assertion. -/
theorem deviceObjectVector_selfAssert_error (v : DeviceObjectVector) (heap : Heap)
    (i : Int) (h : v.selfAssert heap i ≠ .ok ()) :
    v.selfAssert heap i = .error Abort.assertion := by
  rcases v with ⟨_ | a⟩
  · simp [DeviceObjectVector.selfAssert, assert, bind, Except.bind]
  · by_cases hi : i < ((heap a).geomModel.ngeoms : Int)
    · exact absurd ((deviceObjectVector_selfAssert_ok_iff _ heap i).2 ⟨a, rfl, hi⟩) h
    · simp [DeviceObjectVector.selfAssert, DeviceObjectVector.size, assert, deref, bind,
        Except.bind, pure, Except.pure, hi]

/-- The check of the joint view passes exactly for a non-null device and an
index between 0 and the joint count minus one, the latter excluded. -/
theorem jointVector_selfAssert_ok_iff (v : JointVector) (heap : Heap) (i : Int) :
    v.selfAssert heap i = .ok () ↔
      ∃ a, v.devicePtr = some a ∧ 0 ≤ i ∧ i < (heap a).model.njoint - 1 := by
  rcases v with ⟨_ | a⟩
  · simp [JointVector.selfAssert, assert, bind, Except.bind]
  · by_cases h0 : 0 ≤ i <;> by_cases h1 : i < (heap a).model.njoint - 1 <;>
      simp [JointVector.selfAssert, JointVector.ibegin, JointVector.iend, JointVector.size,
        assert, deref, bind, Except.bind, pure, Except.pure, h0, h1]

/-- A failed check of the joint view is a failed assertion. -/
theorem jointVector_selfAssert_error (v : JointVector) (heap : Heap) (i : Int)
    (h : v.selfAssert heap i ≠ .ok ()) : v.selfAssert heap i = .error Abort.assertion := by
  rcases v with ⟨_ | a⟩
  · simp [JointVector.selfAssert, assert, bind, Except.bind]
  · by_cases h0 : 0 ≤ i <;> by_cases h1 : i < (heap a).model.njoint - 1
    · exact absurd ((jointVector_selfAssert_ok_iff _ heap i).2 ⟨a, rfl, h0, h1⟩) h
    all_goals
      simp [JointVector.selfAssert, JointVector.ibegin, JointVector.iend, JointVector.size,
        assert, deref, bind, Except.bind, pure, Except.pure, h0, h1]

/-- The mutable access of the joint view: the result of the check, then the
handle of index `i + 1`. -/
theorem jointVector_at_eq (v : JointVector) (heap : Heap) (i : Int) :
    v.at_ heap i = (v.selfAssert heap i).map (fun _ => Joint.mk v.devicePtr (i + 1)) := by
  unfold JointVector.at_
  cases v.selfAssert heap i <;> rfl

/-- The read-only access of the joint view: the result of the check, then the
handle of index `i + 1`. -/
theorem jointVector_at_const_eq (v : JointVector) (heap : Heap) (i : Int) :
    v.at_const heap i = (v.selfAssert heap i).map (fun _ => Joint.mk v.devicePtr (i + 1)) := by
  unfold JointVector.at_const
  cases v.selfAssert heap i <;> rfl

/-- The mutable access of the device view: the result of the check at the
defaulted index, then the handle of index `i`. -/
theorem deviceObjectVector_at_eq (dflt : Int) (v : DeviceObjectVector) (heap : Heap)
    (i : Int) :
    v.at_ dflt heap i
      = (v.selfAssert heap dflt).map (fun _ => CollisionObject.ofGeom v.devicePtr i) := by
  unfold DeviceObjectVector.at_
  cases v.selfAssert heap dflt <;> rfl

/-- The read-only access of the device view: the result of the check at the
defaulted index, then the handle of index `i`. -/
theorem deviceObjectVector_at_const_eq (dflt : Int) (v : DeviceObjectVector)
    (heap : Heap) (i : Int) :
    v.at_const dflt heap i
      = (v.selfAssert heap dflt).map (fun _ => CollisionObject.ofGeom v.devicePtr i) := by
  unfold DeviceObjectVector.at_const
  cases v.selfAssert heap dflt <;> rfl

/-! ## Device geometry view: the check made by `at` -/

/-- C1 (fails on the code). The check made by `DeviceObjectVector::at(i)` is
`selfAssert()` called without `i`. On a valid device with one geometry, and
whatever index the header supplies for the omitted argument, `at(0)` and
`at(1)` have the same outcome in both overloads, although 0 is in range and 1
is not; with the index 0 supplied, `at(1)` and `at(-1)` are accepted and
return handles of index 1 and -1. -/
theorem C1_deviceObjectVector_at_check_ignores_index :
    (∀ dflt : Int,
      accepted (DeviceObjectVector.at_ dflt ⟨some 0⟩ (constHeap (mkDevice 5 1 2 5)) 0)
        = accepted (DeviceObjectVector.at_ dflt ⟨some 0⟩ (constHeap (mkDevice 5 1 2 5)) 1) ∧
      accepted (DeviceObjectVector.at_const dflt ⟨some 0⟩ (constHeap (mkDevice 5 1 2 5)) 0)
        = accepted
            (DeviceObjectVector.at_const dflt ⟨some 0⟩ (constHeap (mkDevice 5 1 2 5)) 1)) ∧
    DeviceObjectVector.size ⟨some 0⟩ (constHeap (mkDevice 5 1 2 5)) = .ok 1 ∧
    DeviceObjectVector.at_ 0 ⟨some 0⟩ (constHeap (mkDevice 5 1 2 5)) 1
      = .ok (CollisionObject.ofGeom (some 0) 1) ∧
    DeviceObjectVector.at_ 0 ⟨some 0⟩ (constHeap (mkDevice 5 1 2 5)) (-1)
      = .ok (CollisionObject.ofGeom (some 0) (-1)) ∧
    DeviceObjectVector.at_const 0 ⟨some 0⟩ (constHeap (mkDevice 5 1 2 5)) 1
      = .ok (CollisionObject.ofGeom (some 0) 1) ∧
    DeviceObjectVector.at_const 0 ⟨some 0⟩ (constHeap (mkDevice 5 1 2 5)) (-1)
      = .ok (CollisionObject.ofGeom (some 0) (-1)) := by
  refine ⟨fun dflt => ⟨?_, ?_⟩, rfl, rfl, rfl, rfl, rfl⟩
  · rw [deviceObjectVector_at_eq, deviceObjectVector_at_eq]
    cases DeviceObjectVector.selfAssert ⟨some 0⟩ (constHeap (mkDevice 5 1 2 5)) dflt <;> rfl
  · rw [deviceObjectVector_at_const_eq, deviceObjectVector_at_const_eq]
    cases DeviceObjectVector.selfAssert ⟨some 0⟩ (constHeap (mkDevice 5 1 2 5)) dflt <;> rfl

/-! ## Joint-scoped geometry view: the check made by `at` -/

/-- C2 (fails on the code). `ObjectVector::at` makes no check. For a joint
with 2 inner and 5 outer geometries the two views have sizes 2 and 5, and
`at(3)` is accepted by the INNER view as it is by the OUTER view, in both
overloads; so are `at(-1)` and `at(5)` on the INNER view. -/
theorem C2_objectVector_at_accepts_out_of_range :
    ObjectVector.size ⟨some 0, 1, InOutType.INNER⟩ (constHeap (mkDevice 5 7 2 5)) = .ok 2 ∧
    ObjectVector.size ⟨some 0, 1, InOutType.OUTER⟩ (constHeap (mkDevice 5 7 2 5)) = .ok 5 ∧
    ObjectVector.at_ ⟨some 0, 1, InOutType.INNER⟩ (constHeap (mkDevice 5 7 2 5)) 3
      = .ok (CollisionObject.ofJointGeom (some 0) 1 3 InOutType.INNER) ∧
    ObjectVector.at_const ⟨some 0, 1, InOutType.INNER⟩ (constHeap (mkDevice 5 7 2 5)) 3
      = .ok (CollisionObject.ofJointGeom (some 0) 1 3 InOutType.INNER) ∧
    ObjectVector.at_ ⟨some 0, 1, InOutType.OUTER⟩ (constHeap (mkDevice 5 7 2 5)) 3
      = .ok (CollisionObject.ofJointGeom (some 0) 1 3 InOutType.OUTER) ∧
    ObjectVector.at_ ⟨some 0, 1, InOutType.INNER⟩ (constHeap (mkDevice 5 7 2 5)) (-1)
      = .ok (CollisionObject.ofJointGeom (some 0) 1 (-1) InOutType.INNER) ∧
    ObjectVector.at_ ⟨some 0, 1, InOutType.INNER⟩ (constHeap (mkDevice 5 7 2 5)) 5
      = .ok (CollisionObject.ofJointGeom (some 0) 1 5 InOutType.INNER) ∧
    ObjectVector.selfAssert ⟨some 0, 1, InOutType.INNER⟩ (constHeap (mkDevice 5 7 2 5)) 3
      = .error Abort.assertion :=
  ⟨rfl, rfl, rfl, rfl, rfl, rfl, rfl, rfl⟩

/-! ## Joint view -/

/-- C3. The check made by `JointVector::at(i)`, in both overloads, passes if
and only if the device pointer is not null and `ibegin() <= i < iend()`, where
`ibegin()` is 0 and `iend()` is `size()`, the joint count minus one; a call
whose check passes returns a handle and a call whose check fails stops on the
failed assertion. For a device with 5 joints, `size()` is 4, `at(3)` is
accepted and resolves to the internal index 4, and `at(4)` is rejected. -/
theorem C3_jointVector_at_check (v : JointVector) (heap : Heap) (i : Int) :
    (v.selfAssert heap i = .ok () ↔
      ∃ a, v.devicePtr = some a ∧ v.ibegin heap = .ok 0 ∧
        v.iend heap = .ok ((heap a).model.njoint - 1) ∧
        v.size heap = .ok ((heap a).model.njoint - 1) ∧
        0 ≤ i ∧ i < (heap a).model.njoint - 1) ∧
    (accepted (v.at_ heap i) = true ↔ v.selfAssert heap i = .ok ()) ∧
    (accepted (v.at_const heap i) = true ↔ v.selfAssert heap i = .ok ()) ∧
    (accepted (v.at_ heap i) = false → v.at_ heap i = .error Abort.assertion) ∧
    (accepted (v.at_const heap i) = false → v.at_const heap i = .error Abort.assertion) ∧
    (∀ a, v.devicePtr = some a → (heap a).model.njoint = 5 →
      v.size heap = .ok 4 ∧
      v.at_ heap 3 = .ok ⟨some a, 4⟩ ∧ v.at_const heap 3 = .ok ⟨some a, 4⟩ ∧
      v.at_ heap 4 = .error Abort.assertion ∧
      v.at_const heap 4 = .error Abort.assertion) := by
  refine ⟨?_, ?_, ?_, ?_, ?_, ?_⟩
  · rw [jointVector_selfAssert_ok_iff]
    constructor
    · rintro ⟨a, ha, h0, h1⟩
      refine ⟨a, ha, rfl, ?_, ?_, h0, h1⟩ <;>
        simp [JointVector.iend, JointVector.size, deref, ha, bind, Except.bind, pure,
          Except.pure]
    · rintro ⟨a, ha, _, _, _, h0, h1⟩
      exact ⟨a, ha, h0, h1⟩
  · rw [jointVector_at_eq]
    cases h : v.selfAssert heap i <;> simp [accepted, Except.map]
  · rw [jointVector_at_const_eq]
    cases h : v.selfAssert heap i <;> simp [accepted, Except.map]
  · intro h
    rw [jointVector_at_eq] at h ⊢
    by_cases hs : v.selfAssert heap i = .ok ()
    · rw [hs] at h
      simp [accepted, Except.map] at h
    · rw [jointVector_selfAssert_error v heap i hs]
      rfl
  · intro h
    rw [jointVector_at_const_eq] at h ⊢
    by_cases hs : v.selfAssert heap i = .ok ()
    · rw [hs] at h
      simp [accepted, Except.map] at h
    · rw [jointVector_selfAssert_error v heap i hs]
      rfl
  · intro a ha hn
    have h3 : v.selfAssert heap 3 = .ok () :=
      (jointVector_selfAssert_ok_iff v heap 3).2 ⟨a, ha, by decide, by rw [hn]; decide⟩
    have h4 : v.selfAssert heap 4 = .error Abort.assertion := by
      apply jointVector_selfAssert_error
      rw [Ne, jointVector_selfAssert_ok_iff]
      rintro ⟨b, hb, _, h⟩
      rw [ha] at hb
      cases hb
      rw [hn] at h
      exact absurd h (by decide)
    refine ⟨?_, ?_, ?_, ?_, ?_⟩
    · simp [JointVector.size, deref, ha, hn, bind, Except.bind, pure, Except.pure]
    · rw [jointVector_at_eq, h3, ha]
      rfl
    · rw [jointVector_at_const_eq, h3, ha]
      rfl
    · rw [jointVector_at_eq, h4]
      rfl
    · rw [jointVector_at_const_eq, h4]
      rfl

/-- C3, at the device of address 0 with 5 joints: `size()` is 4, `at(3)`
returns the handle of internal index 4 and `at(4)` fails its assertion. -/
theorem C3_jointVector_at_check_witness :
    JointVector.size ⟨some 0⟩ (constHeap (mkDevice 5 1 2 5)) = .ok 4 ∧
    JointVector.at_ ⟨some 0⟩ (constHeap (mkDevice 5 1 2 5)) 3 = .ok ⟨some 0, 4⟩ ∧
    JointVector.at_const ⟨some 0⟩ (constHeap (mkDevice 5 1 2 5)) 3 = .ok ⟨some 0, 4⟩ ∧
    JointVector.at_ ⟨some 0⟩ (constHeap (mkDevice 5 1 2 5)) 4 = .error Abort.assertion ∧
    JointVector.at_const ⟨some 0⟩ (constHeap (mkDevice 5 1 2 5)) 4
      = .error Abort.assertion :=
  (C3_jointVector_at_check ⟨some 0⟩ (constHeap (mkDevice 5 1 2 5)) 0).2.2.2.2.2 0 rfl rfl

/-- An accepted access of the joint view passed the check and returned the
handle of the view's device and of the index `i + 1`. -/
theorem jointVector_at_ok (v : JointVector) (heap : Heap) (i : Int) (j : Joint)
    (h : v.at_ heap i = .ok j) :
    v.selfAssert heap i = .ok () ∧ j = Joint.mk v.devicePtr (i + 1) := by
  rw [jointVector_at_eq] at h
  cases hs : v.selfAssert heap i with
  | error e => rw [hs] at h; cases h
  | ok u => rw [hs] at h; cases h; exact ⟨rfl, rfl⟩

/-- An access of the joint view whose check passes returns the handle of the
view's device and of the index `i + 1`. -/
theorem jointVector_at_of_selfAssert (v : JointVector) (heap : Heap) (i : Int)
    (h : v.selfAssert heap i = .ok ()) :
    v.at_ heap i = .ok (Joint.mk v.devicePtr (i + 1)) ∧
      v.at_const heap i = .ok (Joint.mk v.devicePtr (i + 1)) := by
  rw [jointVector_at_eq, jointVector_at_const_eq, h]
  exact ⟨rfl, rfl⟩

/-- C4. For a valid device and an index `i` with `ibegin() <= i < iend()`,
`JointVector::at(i)` returns, in both overloads, the joint handle bound to
the device and to the internal index `i + 1`. Every accepted access resolves
to `i + 1` on the view's device, so `at(0)`, when accepted, resolves to the
internal index 1, and no accepted index resolves to the internal index 0. -/
theorem C4_jointVector_at_resolves_successor (v : JointVector) (heap : Heap) (a : Nat)
    (i b e : Int) (hv : v.devicePtr = some a) (hb : v.ibegin heap = .ok b)
    (he : v.iend heap = .ok e) (hlo : b ≤ i) (hhi : i < e) :
    v.at_ heap i = .ok ⟨some a, i + 1⟩ ∧
    v.at_const heap i = .ok ⟨some a, i + 1⟩ ∧
    (∀ j, v.at_ heap 0 = .ok j → j = ⟨some a, 1⟩) ∧
    (∀ (k : Int) (j : Joint), v.at_ heap k = .ok j → j.devicePtr = some a ∧ j.index = k + 1 ∧ j.index ≠ 0) ∧
    (∀ (k : Int) (j : Joint), v.at_const heap k = .ok j →
      j.devicePtr = some a ∧ j.index = k + 1 ∧ j.index ≠ 0) := by
  have hb0 : b = 0 := by
    simp [JointVector.ibegin, pure, Except.pure] at hb
    exact hb.symm
  have he0 : e = (heap a).model.njoint - 1 := by
    simp [JointVector.iend, JointVector.size, deref, hv, bind, Except.bind, pure,
      Except.pure] at he
    exact he.symm
  have hs : v.selfAssert heap i = .ok () :=
    (jointVector_selfAssert_ok_iff v heap i).2 ⟨a, hv, hb0 ▸ hlo, he0 ▸ hhi⟩
  have key : ∀ (k : Int) (j : Joint), v.at_ heap k = .ok j →
      j.devicePtr = some a ∧ j.index = k + 1 ∧ j.index ≠ 0 := by
    intro k j hk
    obtain ⟨hc, rfl⟩ := jointVector_at_ok v heap k j hk
    obtain ⟨_, _, h0, _⟩ := (jointVector_selfAssert_ok_iff v heap k).1 hc
    refine ⟨hv, rfl, ?_⟩
    have h : k + 1 ≠ 0 := by omega
    exact h
  have hat := jointVector_at_of_selfAssert v heap i hs
  rw [hv] at hat
  refine ⟨hat.1, hat.2, ?_, key, ?_⟩
  · intro j hj
    obtain ⟨h1, h2, _⟩ := key 0 j hj
    cases j
    simp only [Joint.mk.injEq]
    exact ⟨h1, by simpa using h2⟩
  · intro k j hk
    apply key k j
    rw [jointVector_at_eq]
    rw [jointVector_at_const_eq] at hk
    exact hk

/-- C4, at the device of address 0 with 5 joints and the index 0: the access
returns the handle of internal index 1. -/
theorem C4_jointVector_at_resolves_successor_witness :
    JointVector.at_ ⟨some 0⟩ (constHeap (mkDevice 5 1 2 5)) 0 = .ok ⟨some 0, 0 + 1⟩ :=
  (C4_jointVector_at_resolves_successor ⟨some 0⟩ (constHeap (mkDevice 5 1 2 5)) 0 0 0 4 rfl
    rfl rfl (by decide) (by decide)).1

/-- C5. For a valid device, whatever its joint count (so in particular when it
is at least 1), the accepted external indices of the joint view
are exactly `0 .. jointCount - 2`; on them the map from `i` to the resolved
index of `at(i)` is injective, its image is exactly the internal indices
`1 .. jointCount - 1`, and no resolved index reaches `jointCount`. -/
theorem C5_jointVector_rebasing_bijection (v : JointVector) (heap : Heap) (a : Nat)
    (hv : v.devicePtr = some a) :
    (∀ i : Int, accepted (v.at_ heap i) = true ↔ (0 ≤ i ∧ i ≤ (heap a).model.njoint - 2)) ∧
    (∀ (i1 i2 : Int) (j1 j2 : Joint), v.at_ heap i1 = .ok j1 → v.at_ heap i2 = .ok j2 →
      j1.index = j2.index → i1 = i2) ∧
    (∀ m : Int, (1 ≤ m ∧ m ≤ (heap a).model.njoint - 1) ↔
      ∃ (i : Int) (j : Joint), 0 ≤ i ∧ i ≤ (heap a).model.njoint - 2 ∧ v.at_ heap i = .ok j ∧ j.index = m) ∧
    (∀ (i : Int) (j : Joint), v.at_ heap i = .ok j → 1 ≤ j.index ∧ j.index < (heap a).model.njoint) := by
  have hok : ∀ i : Int, v.selfAssert heap i = .ok () ↔ (0 ≤ i ∧ i < (heap a).model.njoint - 1) := by
    intro i
    rw [jointVector_selfAssert_ok_iff]
    constructor
    · rintro ⟨b, hb, h⟩
      rw [hv] at hb
      cases hb
      exact h
    · intro h
      exact ⟨a, hv, h⟩
  refine ⟨?_, ?_, ?_, ?_⟩
  · intro i
    rw [jointVector_at_eq]
    by_cases hs : v.selfAssert heap i = .ok ()
    · have := (hok i).1 hs
      rw [hs]
      simp only [Except.map, accepted, true_iff]
      omega
    · have hne := hs
      rw [hok i] at hne
      rw [jointVector_selfAssert_error v heap i hs]
      simp only [Except.map, accepted, Bool.false_eq_true, false_iff]
      omega
  · intro i1 i2 j1 j2 h1 h2 hj
    obtain ⟨_, rfl⟩ := jointVector_at_ok v heap i1 j1 h1
    obtain ⟨_, rfl⟩ := jointVector_at_ok v heap i2 j2 h2
    have : i1 + 1 = i2 + 1 := hj
    omega
  · intro m
    constructor
    · rintro ⟨h1, h2⟩
      have hs : v.selfAssert heap (m - 1) = .ok () := (hok (m - 1)).2 ⟨by omega, by omega⟩
      refine ⟨m - 1, ⟨v.devicePtr, m - 1 + 1⟩, by omega, by omega,
        (jointVector_at_of_selfAssert v heap (m - 1) hs).1, ?_⟩
      have h : m - 1 + 1 = m := by omega
      exact h
    · rintro ⟨i, j, h0, h1, hat, hm⟩
      obtain ⟨_, rfl⟩ := jointVector_at_ok v heap i j hat
      have : i + 1 = m := hm
      omega
  · intro i j hat
    obtain ⟨hs, rfl⟩ := jointVector_at_ok v heap i j hat
    have := (hok i).1 hs
    have h : 1 ≤ i + 1 ∧ i + 1 < (heap a).model.njoint := by omega
    exact h

/-- C5, at the device of address 0 with 5 joints: the internal index 4 is
reached, from an external index between 0 and 3. -/
theorem C5_jointVector_rebasing_bijection_witness :
    ∃ (i : Int) (j : Joint), 0 ≤ i ∧ i ≤ (constHeap (mkDevice 5 1 2 5) 0).model.njoint - 2 ∧
      JointVector.at_ ⟨some 0⟩ (constHeap (mkDevice 5 1 2 5)) i = .ok j ∧ j.index = 4 :=
  ((C5_jointVector_rebasing_bijection ⟨some 0⟩ (constHeap (mkDevice 5 1 2 5)) 0
    rfl).2.2.1 4).1 ⟨by decide, by decide⟩

/-! ## Device geometry view: size and handles -/

/-- The size of the device view on a valid device is the geometry count of
the device the pointer refers to at the time of the call. -/
theorem deviceObjectVector_size_eq (v : DeviceObjectVector) (heap : Heap) (a : Nat)
    (hv : v.devicePtr = some a) : v.size heap = .ok ((heap a).geomModel.ngeoms : Int) := by
  simp [DeviceObjectVector.size, deref, hv, bind, Except.bind, pure, Except.pure]

/-- C6. For a valid device, `DeviceObjectVector::size()` is the device's total
geometry count, and for every `i` in `[0, size())` the check made by `at(i)`
passes and `at(i)` returns, in both overloads, the geometry handle bound to
the device and to the index `i`. The check is `selfAssert()` at the index
`dflt` that the header supplies for the omitted argument (0 in the upstream
declaration); the statement holds for every `dflt ≤ 0`. -/
theorem C6_deviceObjectVector_size_and_at (dflt : Int) (v : DeviceObjectVector)
    (heap : Heap) (a : Nat) (hv : v.devicePtr = some a) (hd : dflt ≤ 0) :
    v.size heap = .ok ((heap a).geomModel.ngeoms : Int) ∧
    ∀ i n : Int, v.size heap = .ok n → 0 ≤ i → i < n →
      v.selfAssert heap dflt = .ok () ∧
      v.at_ dflt heap i = .ok (CollisionObject.ofGeom (some a) i) ∧
      v.at_const dflt heap i = .ok (CollisionObject.ofGeom (some a) i) := by
  have hsz := deviceObjectVector_size_eq v heap a hv
  refine ⟨hsz, ?_⟩
  intro i n hn h0 h1
  rw [hsz] at hn
  have hn2 : ((heap a).geomModel.ngeoms : Int) = n := by
    injection hn
  have hs : v.selfAssert heap dflt = .ok () :=
    (deviceObjectVector_selfAssert_ok_iff v heap dflt).2 ⟨a, hv, by omega⟩
  refine ⟨hs, ?_, ?_⟩
  · rw [deviceObjectVector_at_eq, hs, hv]
    rfl
  · rw [deviceObjectVector_at_const_eq, hs, hv]
    rfl

/-- C6, at the device of address 0 with 7 geometries, the index 6 and the
defaulted index 0: the size is 7 and `at(6)` returns the handle of index 6. -/
theorem C6_deviceObjectVector_size_and_at_witness :
    DeviceObjectVector.size ⟨some 0⟩ (constHeap (mkDevice 5 7 2 5)) = .ok 7 ∧
    DeviceObjectVector.at_ 0 ⟨some 0⟩ (constHeap (mkDevice 5 7 2 5)) 6
      = .ok (CollisionObject.ofGeom (some 0) 6) :=
  ⟨(C6_deviceObjectVector_size_and_at 0 ⟨some 0⟩ (constHeap (mkDevice 5 7 2 5)) 0 rfl
      (by decide)).1,
   ((C6_deviceObjectVector_size_and_at 0 ⟨some 0⟩ (constHeap (mkDevice 5 7 2 5)) 0 rfl
      (by decide)).2 6 7 rfl (by decide) (by decide)).2.1⟩

/-- C7. For a valid device with no geometry, `DeviceObjectVector::size()` is
0 and, for every index `i`, the check made by `at(i)` fails: both overloads
stop on the failed assertion. The check is `selfAssert()` at the index `dflt`
that the header supplies for the omitted argument (0 in the upstream
declaration); the statement holds for every `dflt ≥ 0`. -/
theorem C7_deviceObjectVector_empty_device (dflt : Int) (v : DeviceObjectVector)
    (heap : Heap) (a : Nat) (hv : v.devicePtr = some a)
    (h0 : (heap a).geomModel.ngeoms = 0) (hd : 0 ≤ dflt) :
    v.size heap = .ok 0 ∧
    ∀ i : Int,
      v.at_ dflt heap i = .error Abort.assertion ∧
      v.at_const dflt heap i = .error Abort.assertion ∧
      accepted (v.at_ dflt heap i) = false ∧
      accepted (v.at_const dflt heap i) = false := by
  have hsz : v.size heap = .ok 0 := by
    rw [deviceObjectVector_size_eq v heap a hv, h0]
    rfl
  have hs : v.selfAssert heap dflt = .error Abort.assertion := by
    apply deviceObjectVector_selfAssert_error
    rw [Ne, deviceObjectVector_selfAssert_ok_iff]
    rintro ⟨b, hb, h⟩
    rw [hv] at hb
    cases hb
    rw [h0] at h
    have h2 : dflt < 0 := by simpa using h
    omega
  refine ⟨hsz, fun i => ?_⟩
  rw [deviceObjectVector_at_eq, deviceObjectVector_at_const_eq, hs]
  exact ⟨rfl, rfl, rfl, rfl⟩

/-- C7, at the device of address 0 with no geometry, the index 0 and the
defaulted index 0: the size is 0 and `at(0)` fails its assertion. -/
theorem C7_deviceObjectVector_empty_device_witness :
    DeviceObjectVector.size ⟨some 0⟩ (constHeap (mkDevice 5 0 2 5)) = .ok 0 ∧
    DeviceObjectVector.at_ 0 ⟨some 0⟩ (constHeap (mkDevice 5 0 2 5)) 0
      = .error Abort.assertion :=
  ⟨(C7_deviceObjectVector_empty_device 0 ⟨some 0⟩ (constHeap (mkDevice 5 0 2 5)) 0 rfl rfl
      (by decide)).1,
   ((C7_deviceObjectVector_empty_device 0 ⟨some 0⟩ (constHeap (mkDevice 5 0 2 5)) 0 rfl rfl
      (by decide)).2 0).1⟩

/-! ## Joint-scoped geometry view: size and handles -/

/-- C8. For a valid device, `ObjectVector::size()` is the length of the inner
table entry of the view's joint when the mode is INNER and of the outer table
entry when the mode is OUTER. An INNER view has the same size on every heap
that agrees on the inner entry of its joint at the device's address, whatever
the outer tables and the entries of the other joints are; symmetrically for an
OUTER view. -/
theorem C8_objectVector_size (v : ObjectVector) (heap : Heap) (a : Nat)
    (hv : v.devicePtr = some a) :
    (v.inOutType = InOutType.INNER →
      v.size heap = .ok (((heap a).geomModel.innerObjects v.jointIndex).length : Int)) ∧
    (v.inOutType = InOutType.OUTER →
      v.size heap = .ok (((heap a).geomModel.outerObjects v.jointIndex).length : Int)) ∧
    (∀ heap2 : Heap, v.inOutType = InOutType.INNER →
      (heap2 a).geomModel.innerObjects v.jointIndex
        = (heap a).geomModel.innerObjects v.jointIndex →
      v.size heap2 = v.size heap) ∧
    (∀ heap2 : Heap, v.inOutType = InOutType.OUTER →
      (heap2 a).geomModel.outerObjects v.jointIndex
        = (heap a).geomModel.outerObjects v.jointIndex →
      v.size heap2 = v.size heap) := by
  refine ⟨?_, ?_, ?_, ?_⟩
  · intro hm
    simp [ObjectVector.size, deref, hv, hm, bind, Except.bind, pure, Except.pure]
  · intro hm
    simp [ObjectVector.size, deref, hv, hm, bind, Except.bind, pure, Except.pure]
  · intro heap2 hm h
    simp [ObjectVector.size, deref, hv, hm, h, bind, Except.bind, pure, Except.pure]
  · intro heap2 hm h
    simp [ObjectVector.size, deref, hv, hm, h, bind, Except.bind, pure, Except.pure]

/-- C8, at joint 1 of a device with 2 inner and 5 outer geometries per joint:
the INNER view has size 2, also after the outer tables and the other counts
are changed. -/
theorem C8_objectVector_size_witness :
    ObjectVector.size ⟨some 0, 1, InOutType.INNER⟩ (constHeap (mkDevice 5 7 2 5)) = .ok 2 ∧
    ObjectVector.size ⟨some 0, 1, InOutType.INNER⟩ (constHeap (mkDevice 3 9 2 8))
      = ObjectVector.size ⟨some 0, 1, InOutType.INNER⟩ (constHeap (mkDevice 5 7 2 5)) :=
  ⟨(C8_objectVector_size ⟨some 0, 1, InOutType.INNER⟩ (constHeap (mkDevice 5 7 2 5)) 0
      rfl).1 rfl,
   (C8_objectVector_size ⟨some 0, 1, InOutType.INNER⟩ (constHeap (mkDevice 5 7 2 5)) 0
      rfl).2.2.1 (constHeap (mkDevice 3 9 2 8)) rfl rfl⟩

/-- C9. For a valid device, a joint index below the joint count and an index
`i` with `0 <= i < size()`, `ObjectVector::at(i)` returns, in both overloads,
the geometry handle bound to the device, to the joint index and the mode of
the view, and to the element index `i` itself. -/
theorem C9_objectVector_at_handle (v : ObjectVector) (heap : Heap) (a : Nat) (i n : Int)
    (hv : v.devicePtr = some a) (_hj : (v.jointIndex : Int) < (heap a).model.njoint)
    (_hn : v.size heap = .ok n) (_h0 : 0 ≤ i) (_h1 : i < n) :
    v.at_ heap i = .ok (CollisionObject.ofJointGeom (some a) v.jointIndex i v.inOutType) ∧
    v.at_const heap i
      = .ok (CollisionObject.ofJointGeom (some a) v.jointIndex i v.inOutType) := by
  simp [ObjectVector.at_, ObjectVector.at_const, hv, pure, Except.pure]

/-- C9, at joint 1 of a device with 5 joints and 5 outer geometries per
joint: the OUTER view returns at index 3 the handle (device, 1, 3, OUTER). -/
theorem C9_objectVector_at_handle_witness :
    ObjectVector.at_ ⟨some 0, 1, InOutType.OUTER⟩ (constHeap (mkDevice 5 7 2 5)) 3
      = .ok (CollisionObject.ofJointGeom (some 0) 1 3 InOutType.OUTER) :=
  (C9_objectVector_at_handle ⟨some 0, 1, InOutType.OUTER⟩ (constHeap (mkDevice 5 7 2 5)) 0 3 5
    rfl (by decide) rfl (by decide) (by decide)).1

/-! ## Joint view: size -/

/-- C10. For a valid device, `JointVector::size()` is the joint count, read
from the heap at the time of the call, minus one: the same view on two heaps
whose device has `n1` and `n2` joints returns `n1 - 1` and `n2 - 1`. -/
theorem C10_jointVector_size_current (v : JointVector) (heap : Heap) (a : Nat)
    (hv : v.devicePtr = some a) :
    v.size heap = .ok ((heap a).model.njoint - 1) ∧
    ∀ (heap2 : Heap) (n1 n2 : Int), (heap a).model.njoint = n1 →
      (heap2 a).model.njoint = n2 →
      v.size heap = .ok (n1 - 1) ∧ v.size heap2 = .ok (n2 - 1) := by
  have hsz : ∀ h : Heap, v.size h = .ok ((h a).model.njoint - 1) := by
    intro h
    simp [JointVector.size, deref, hv, bind, Except.bind, pure, Except.pure]
  refine ⟨hsz heap, ?_⟩
  intro heap2 n1 n2 h1 h2
  rw [hsz heap, hsz heap2, h1, h2]
  exact ⟨rfl, rfl⟩

/-- C10, for one view and the device of address 0 having first 5 joints and
then 9: the two calls return 4 and 8. -/
theorem C10_jointVector_size_current_witness :
    JointVector.size ⟨some 0⟩ (constHeap (mkDevice 5 1 2 5)) = .ok (5 - 1) ∧
    JointVector.size ⟨some 0⟩ (constHeap (mkDevice 9 1 2 5)) = .ok (9 - 1) :=
  (C10_jointVector_size_current ⟨some 0⟩ (constHeap (mkDevice 5 1 2 5)) 0 rfl).2
    (constHeap (mkDevice 9 1 2 5)) 5 9 rfl rfl

/-! ## The transitions without a table subscript

The outcome of each of these transitions is the value of the corresponding
function of the view and the heap, and the state after it is the state
before. -/

/-- A sequence of two steps that leave the state leaves the state, and its
outcome is the sequence of the two outcomes. -/
theorem method_seq_reads {V α β : Type} (m : Method V α) (f : α → Method V β)
    (g : V → Heap → Except Abort α) (k : α → V → Heap → Except Abort β)
    (hm : ∀ s, m s = (g s.view s.heap, s))
    (hf : ∀ x s, f x s = (k x s.view s.heap, s)) (s : State V) :
    (m >>= f) s = (g s.view s.heap >>= fun x => k x s.view s.heap, s) := by
  show Method.seq m f s = _
  unfold Method.seq
  rw [hm s]
  cases g s.view s.heap with
  | error e => rfl
  | ok x => exact hf x s

/-- `DeviceObjectVector::selfAssert` leaves the state. -/
theorem deviceObjectVector_selfAssertM_run (i : Int) (s : State DeviceObjectVector) :
    DeviceObjectVector.selfAssertM i s = (s.view.selfAssert s.heap i, s) := by
  rcases s with ⟨⟨_ | a⟩, heap⟩
  · rfl
  · by_cases h : i < ((heap a).geomModel.ngeoms : Int) <;>
      simp [DeviceObjectVector.selfAssertM, DeviceObjectVector.sizeM,
        DeviceObjectVector.selfAssert, DeviceObjectVector.size, Method.self, Method.derefM,
        Method.assertM, Method.seq, Method.ret, assert, deref, bind, Except.bind, pure,
        Except.pure, h]

/-- `DeviceObjectVector::at` leaves the state. -/
theorem deviceObjectVector_atM_run (dflt i : Int) (s : State DeviceObjectVector) :
    DeviceObjectVector.atM dflt i s = (s.view.at_ dflt s.heap i, s) :=
  method_seq_reads (DeviceObjectVector.selfAssertM dflt) _
    (fun v heap => v.selfAssert heap dflt)
    (fun _ v _ => .ok (CollisionObject.ofGeom v.devicePtr i))
    (deviceObjectVector_selfAssertM_run dflt) (fun _ _ => rfl) s

/-- `DeviceObjectVector::at const` leaves the state. -/
theorem deviceObjectVector_atConstM_run (dflt i : Int) (s : State DeviceObjectVector) :
    DeviceObjectVector.atConstM dflt i s = (s.view.at_const dflt s.heap i, s) :=
  method_seq_reads (DeviceObjectVector.selfAssertM dflt) _
    (fun v heap => v.selfAssert heap dflt)
    (fun _ v _ => .ok (CollisionObject.ofGeom v.devicePtr i))
    (deviceObjectVector_selfAssertM_run dflt) (fun _ _ => rfl) s

/-- `ObjectVector::at` and `ObjectVector::at const` leave the state. -/
theorem objectVector_atM_run (i : Int) (s : State ObjectVector) :
    ObjectVector.atM i s = (s.view.at_ s.heap i, s) ∧
      ObjectVector.atConstM i s = (s.view.at_const s.heap i, s) :=
  ⟨rfl, rfl⟩

/-- `JointVector::selfAssert` leaves the state. -/
theorem jointVector_selfAssertM_run (i : Int) (s : State JointVector) :
    JointVector.selfAssertM i s = (s.view.selfAssert s.heap i, s) := by
  rcases s with ⟨⟨_ | a⟩, heap⟩
  · rfl
  · by_cases h0 : 0 ≤ i <;> by_cases h1 : i < (heap a).model.njoint - 1 <;>
      simp [JointVector.selfAssertM, JointVector.ibeginM, JointVector.iendM,
        JointVector.sizeM, JointVector.selfAssert, JointVector.ibegin, JointVector.iend,
        JointVector.size, Method.self, Method.derefM, Method.assertM, Method.seq, Method.ret,
        assert, deref, bind, Except.bind, pure, Except.pure, h0, h1]

/-- `JointVector::at` leaves the state. -/
theorem jointVector_atM_run (i : Int) (s : State JointVector) :
    JointVector.atM i s = (s.view.at_ s.heap i, s) :=
  method_seq_reads (JointVector.selfAssertM i) _
    (fun v heap => v.selfAssert heap i)
    (fun _ v _ => .ok (Joint.mk v.devicePtr (i + 1)))
    (jointVector_selfAssertM_run i) (fun _ _ => rfl) s

/-- `JointVector::at const` leaves the state. -/
theorem jointVector_atConstM_run (i : Int) (s : State JointVector) :
    JointVector.atConstM i s = (s.view.at_const s.heap i, s) :=
  method_seq_reads (JointVector.selfAssertM i) _
    (fun v heap => v.selfAssert heap i)
    (fun _ v _ => .ok (Joint.mk v.devicePtr (i + 1)))
    (jointVector_selfAssertM_run i) (fun _ _ => rfl) s

/-! ## Joint view: range bounds -/

/-- C11. For a valid device, `JointVector::ibegin()` is 0 and
`JointVector::iend()` is `JointVector::size()`, the joint count minus one; the
indices accepted by `at`, in both overloads, are exactly those of the
half-open range from `ibegin()` to `iend()`. -/
theorem C11_jointVector_range_bounds (v : JointVector) (heap : Heap) (a : Nat)
    (hv : v.devicePtr = some a) :
    v.ibegin heap = .ok 0 ∧
    v.iend heap = v.size heap ∧
    v.iend heap = .ok ((heap a).model.njoint - 1) ∧
    (∀ i b e : Int, v.ibegin heap = .ok b → v.iend heap = .ok e →
      (accepted (v.at_ heap i) = true ↔ b ≤ i ∧ i < e) ∧
      (accepted (v.at_const heap i) = true ↔ b ≤ i ∧ i < e)) := by
  have he : v.iend heap = .ok ((heap a).model.njoint - 1) := by
    simp [JointVector.iend, JointVector.size, deref, hv, bind, Except.bind, pure, Except.pure]
  refine ⟨rfl, rfl, he, ?_⟩
  intro i b e hb hie
  have hb0 : (0 : Int) = b := by
    have h : (Except.ok 0 : Except Abort Int) = .ok b := hb
    injection h
  have he0 : (heap a).model.njoint - 1 = e := by
    rw [he] at hie
    injection hie
  have hok : v.selfAssert heap i = .ok () ↔ (b ≤ i ∧ i < e) := by
    rw [jointVector_selfAssert_ok_iff, ← hb0, ← he0]
    constructor
    · rintro ⟨c, hc, h⟩
      rw [hv] at hc
      cases hc
      exact h
    · intro h
      exact ⟨a, hv, h⟩
  rw [jointVector_at_eq, jointVector_at_const_eq, ← hok]
  cases hs : v.selfAssert heap i <;> simp [accepted, Except.map]

/-- C11, at the device of address 0 with 5 joints: `iend()` is 4 and the index
3, between `ibegin()` and `iend()`, is accepted. -/
theorem C11_jointVector_range_bounds_witness :
    JointVector.iend ⟨some 0⟩ (constHeap (mkDevice 5 1 2 5)) = .ok (5 - 1) ∧
    accepted (JointVector.at_ ⟨some 0⟩ (constHeap (mkDevice 5 1 2 5)) 3) = true :=
  ⟨(C11_jointVector_range_bounds ⟨some 0⟩ (constHeap (mkDevice 5 1 2 5)) 0 rfl).2.2.1,
   ((C11_jointVector_range_bounds ⟨some 0⟩ (constHeap (mkDevice 5 1 2 5)) 0 rfl).2.2.2
      3 0 4 rfl rfl).1.2 ⟨by decide, by decide⟩⟩

/-! ## Repeated calls, effects, overloads -/

/-- The size and the checks of the device view depend on the heap only
through the device the view points to. -/
theorem deviceObjectVector_selfAssert_congr (v : DeviceObjectVector) (h1 h2 : Heap)
    (i : Int) (h : ∀ a, v.devicePtr = some a → h1 a = h2 a) :
    v.selfAssert h1 i = v.selfAssert h2 i := by
  rcases v with ⟨_ | a⟩
  · rfl
  · have e : h1 a = h2 a := h a rfl
    simp [DeviceObjectVector.selfAssert, DeviceObjectVector.size, deref, e]

/-- The check of the joint view depends on the heap only through the device
the view points to. -/
theorem jointVector_selfAssert_congr (v : JointVector) (h1 h2 : Heap) (i : Int)
    (h : ∀ a, v.devicePtr = some a → h1 a = h2 a) :
    v.selfAssert h1 i = v.selfAssert h2 i := by
  rcases v with ⟨_ | a⟩
  · rfl
  · have e : h1 a = h2 a := h a rfl
    simp [JointVector.selfAssert, JointVector.iend, JointVector.size, JointVector.ibegin,
      deref, e]

/-- C12. For each of the three views and each overload of `at`, a second call
of `at(i)` made in the state the first call leaves has the same outcome as the
first: both are rejected, or both are accepted with the same handle (device
reference, resolved index, and joint index and mode for `ObjectVector`). The
outcome is also the same on any two heaps that hold the same device at the
address the view points to. -/
theorem C12_at_repeatable (dflt i : Int) :
    (∀ s : State DeviceObjectVector,
      DeviceObjectVector.atM dflt i (DeviceObjectVector.atM dflt i s).2
        = DeviceObjectVector.atM dflt i s ∧
      DeviceObjectVector.atConstM dflt i (DeviceObjectVector.atConstM dflt i s).2
        = DeviceObjectVector.atConstM dflt i s) ∧
    (∀ s : State ObjectVector,
      ObjectVector.atM i (ObjectVector.atM i s).2 = ObjectVector.atM i s ∧
      ObjectVector.atConstM i (ObjectVector.atConstM i s).2 = ObjectVector.atConstM i s) ∧
    (∀ s : State JointVector,
      JointVector.atM i (JointVector.atM i s).2 = JointVector.atM i s ∧
      JointVector.atConstM i (JointVector.atConstM i s).2 = JointVector.atConstM i s) ∧
    (∀ (v : DeviceObjectVector) (h1 h2 : Heap), (∀ a, v.devicePtr = some a → h1 a = h2 a) →
      v.at_ dflt h1 i = v.at_ dflt h2 i ∧ v.at_const dflt h1 i = v.at_const dflt h2 i) ∧
    (∀ (v : ObjectVector) (h1 h2 : Heap), (∀ a, v.devicePtr = some a → h1 a = h2 a) →
      v.at_ h1 i = v.at_ h2 i ∧ v.at_const h1 i = v.at_const h2 i) ∧
    (∀ (v : JointVector) (h1 h2 : Heap), (∀ a, v.devicePtr = some a → h1 a = h2 a) →
      v.at_ h1 i = v.at_ h2 i ∧ v.at_const h1 i = v.at_const h2 i) := by
  refine ⟨fun s => ⟨?_, ?_⟩, fun s => ⟨rfl, rfl⟩, fun s => ⟨?_, ?_⟩, ?_, ?_, ?_⟩
  · simp only [deviceObjectVector_atM_run]
  · simp only [deviceObjectVector_atConstM_run]
  · simp only [jointVector_atM_run]
  · simp only [jointVector_atConstM_run]
  · intro v h1 h2 h
    rw [deviceObjectVector_at_eq, deviceObjectVector_at_eq, deviceObjectVector_at_const_eq,
      deviceObjectVector_at_const_eq, deviceObjectVector_selfAssert_congr v h1 h2 dflt h]
    exact ⟨rfl, rfl⟩
  · intro v h1 h2 _
    exact ⟨rfl, rfl⟩
  · intro v h1 h2 h
    rw [jointVector_at_eq, jointVector_at_eq, jointVector_at_const_eq,
      jointVector_at_const_eq, jointVector_selfAssert_congr v h1 h2 i h]
    exact ⟨rfl, rfl⟩

/-- C12, for the joint view of the device of address 0 with 5 joints: `at(3)`
has the same outcome after the device of address 1 is replaced. -/
theorem C12_at_repeatable_witness :
    JointVector.at_ ⟨some 0⟩ (constHeap (mkDevice 5 1 2 5)) 3
      = JointVector.at_ ⟨some 0⟩
          (Heap.set (constHeap (mkDevice 5 1 2 5)) 1 (mkDevice 9 0 0 0)) 3 :=
  ((C12_at_repeatable 0 3).2.2.2.2.2 ⟨some 0⟩ (constHeap (mkDevice 5 1 2 5))
    (Heap.set (constHeap (mkDevice 5 1 2 5)) 1 (mkDevice 9 0 0 0))
    (fun a ha => by cases ha; rfl)).1

/-- A subscript returns the entry the lookup gives and leaves the lookup the
table stands for. -/
theorem keyedTable_subscript_toLookup (m : KeyedTable) (j : Nat) :
    (m.subscript j).1 = m.toLookup j ∧ (m.subscript j).2.toLookup = m.toLookup := by
  unfold KeyedTable.subscript KeyedTable.toLookup
  cases h : m j with
  | some l => simp [h]
  | none =>
    refine ⟨by simp, ?_⟩
    funext k
    by_cases hk : k = j
    · simp [hk, h]
    · simp [hk]

/-- Replacing the inner table of a device by one that stands for the same
lookup leaves the heap the keyed heap stands for. -/
theorem keyedHeap_setInner_toHeap (heap : KeyedHeap) (a : Nat) (m : KeyedTable)
    (h : m.toLookup = (heap a).geomModel.innerObjects.toLookup) :
    (heap.setInner a m).toHeap = heap.toHeap := by
  funext b
  by_cases hb : b = a
  · simp [KeyedHeap.toHeap, KeyedHeap.setInner, KeyedDevice.toDevice, hb, h]
  · simp [KeyedHeap.toHeap, KeyedHeap.setInner, hb]

/-- Replacing the outer table of a device by one that stands for the same
lookup leaves the heap the keyed heap stands for. -/
theorem keyedHeap_setOuter_toHeap (heap : KeyedHeap) (a : Nat) (m : KeyedTable)
    (h : m.toLookup = (heap a).geomModel.outerObjects.toLookup) :
    (heap.setOuter a m).toHeap = heap.toHeap := by
  funext b
  by_cases hb : b = a
  · simp [KeyedHeap.toHeap, KeyedHeap.setOuter, KeyedDevice.toDevice, hb, h]
  · simp [KeyedHeap.toHeap, KeyedHeap.setOuter, hb]

/-- C13 (fails on the code). `ObjectVector::size()` subscripts the table of
its mode at the view's joint index. On a device whose joint 3 has no entry in
the inner table, the call on the INNER view of joint 3 returns 0 and leaves a
heap in which joint 3 has an empty entry: the table has changed, and likewise
the outer table for the OUTER view. On joint 1, which has an entry, the call
returns its length and leaves the heap as it was. In every state the call
returns the value of `ObjectVector.size` on the lookups the tables stand for,
and leaves the view, the counts and these lookups as they were. -/
theorem C13_objectVector_size_inserts_entry :
    (mkKeyedDevice 5 2 2 5).geomModel.innerObjects 3 = none ∧
    (ObjectVector.sizeM ⟨⟨some 0, 3, InOutType.INNER⟩, fun _ => mkKeyedDevice 5 2 2 5⟩).1
      = .ok 0 ∧
    ((ObjectVector.sizeM
        ⟨⟨some 0, 3, InOutType.INNER⟩, fun _ => mkKeyedDevice 5 2 2 5⟩).2.heap
        0).geomModel.innerObjects 3 = some [] ∧
    (ObjectVector.sizeM ⟨⟨some 0, 3, InOutType.INNER⟩, fun _ => mkKeyedDevice 5 2 2 5⟩).2.heap
      ≠ (fun _ => mkKeyedDevice 5 2 2 5) ∧
    ((ObjectVector.sizeM
        ⟨⟨some 0, 3, InOutType.OUTER⟩, fun _ => mkKeyedDevice 5 2 2 5⟩).2.heap
        0).geomModel.outerObjects 3 = some [] ∧
    (ObjectVector.sizeM ⟨⟨some 0, 1, InOutType.INNER⟩, fun _ => mkKeyedDevice 5 2 2 5⟩).1
      = .ok 2 ∧
    (ObjectVector.sizeM ⟨⟨some 0, 1, InOutType.INNER⟩, fun _ => mkKeyedDevice 5 2 2 5⟩).2.heap
      = (fun _ => mkKeyedDevice 5 2 2 5) ∧
    (∀ s : KeyedState,
      (ObjectVector.sizeM s).1 = s.view.size s.heap.toHeap ∧
      (ObjectVector.sizeM s).2.view = s.view ∧
      (ObjectVector.sizeM s).2.heap.toHeap = s.heap.toHeap) := by
  refine ⟨rfl, rfl, rfl, ?_, rfl, rfl, ?_, ?_⟩
  · intro h
    have h3 := congrArg (fun g : KeyedHeap => (g 0).geomModel.innerObjects 3) h
    exact absurd h3 (by decide)
  · funext b
    by_cases hb : b = 0
    · subst hb
      rfl
    · simp [ObjectVector.sizeM, KeyedTable.subscript, KeyedHeap.setInner, mkKeyedDevice, hb]
  · rintro ⟨⟨p, j, m⟩, heap⟩
    cases p with
    | none => cases m <;> exact ⟨rfl, rfl, rfl⟩
    | some a =>
      cases m with
      | INNER =>
        have hk := keyedTable_subscript_toLookup (heap a).geomModel.innerObjects j
        refine ⟨?_, rfl, ?_⟩
        · simp [ObjectVector.sizeM, ObjectVector.size, deref, KeyedHeap.toHeap,
            KeyedDevice.toDevice, hk.1, bind, Except.bind, pure, Except.pure]
        · simp only [ObjectVector.sizeM, if_true]
          exact keyedHeap_setInner_toHeap heap a _ hk.2
      | OUTER =>
        have hk := keyedTable_subscript_toLookup (heap a).geomModel.outerObjects j
        refine ⟨?_, rfl, ?_⟩
        · simp [ObjectVector.sizeM, ObjectVector.size, deref, KeyedHeap.toHeap,
            KeyedDevice.toDevice, hk.1, bind, Except.bind, pure, Except.pure]
        · simp only [ObjectVector.sizeM]
          exact keyedHeap_setOuter_toHeap heap a _ hk.2

/-- C14. For each of the three views, every heap and every index, the mutable
overload and the read-only overload of `at(i)` have the same outcome: the same
check, and when it passes a handle bound to the same device and resolved index
(and joint index and mode for `ObjectVector`); as transitions they are equal
too. -/
theorem C14_at_overloads_agree (dflt i : Int) :
    (∀ (v : DeviceObjectVector) (heap : Heap), v.at_ dflt heap i = v.at_const dflt heap i) ∧
    (∀ (v : ObjectVector) (heap : Heap), v.at_ heap i = v.at_const heap i) ∧
    (∀ (v : JointVector) (heap : Heap), v.at_ heap i = v.at_const heap i) ∧
    (∀ s : State DeviceObjectVector,
      DeviceObjectVector.atM dflt i s = DeviceObjectVector.atConstM dflt i s) ∧
    (∀ s : State ObjectVector, ObjectVector.atM i s = ObjectVector.atConstM i s) ∧
    (∀ s : State JointVector, JointVector.atM i s = JointVector.atConstM i s) := by
  refine ⟨?_, ?_, ?_, ?_, ?_, ?_⟩
  · intro v heap
    rw [deviceObjectVector_at_eq, deviceObjectVector_at_const_eq]
  · intro v heap
    rfl
  · intro v heap
    rw [jointVector_at_eq, jointVector_at_const_eq]
  · intro s
    rw [deviceObjectVector_atM_run, deviceObjectVector_atConstM_run,
      deviceObjectVector_at_eq, deviceObjectVector_at_const_eq]
  · intro s
    rfl
  · intro s
    rw [jointVector_atM_run, jointVector_atConstM_run, jointVector_at_eq,
      jointVector_at_const_eq]

/-! ## What the checks test -/

/-- C15. The check made by `DeviceObjectVector::at` does not depend on the
requested index: `at(i)` is `selfAssert()` at the index `dflt` supplied for
the omitted argument, followed by the construction of the handle, so `at(i)`
is accepted exactly when `at(k)` is, for every two indices, and it is accepted
exactly when the device pointer is not null and `dflt` is below the device's
geometry count; the same holds for the read-only overload. -/
theorem C15_deviceObjectVector_check_independent_of_index (dflt : Int)
    (v : DeviceObjectVector) (heap : Heap) (i k : Int) :
    v.at_ dflt heap i
      = (v.selfAssert heap dflt).map (fun _ => CollisionObject.ofGeom v.devicePtr i) ∧
    accepted (v.at_ dflt heap i) = accepted (v.at_ dflt heap k) ∧
    accepted (v.at_const dflt heap i) = accepted (v.at_const dflt heap k) ∧
    (accepted (v.at_ dflt heap i) = true ↔
      ∃ a, v.devicePtr = some a ∧ dflt < ((heap a).geomModel.ngeoms : Int)) ∧
    (accepted (v.at_const dflt heap i) = true ↔
      ∃ a, v.devicePtr = some a ∧ dflt < ((heap a).geomModel.ngeoms : Int)) := by
  rw [← deviceObjectVector_selfAssert_ok_iff]
  simp only [deviceObjectVector_at_eq, deviceObjectVector_at_const_eq]
  cases hs : v.selfAssert heap dflt <;> simp [accepted, Except.map]

/-- C16. `ObjectVector::at` makes no check: for every device pointer, null or
not, every joint index, every mode and every index `i`, both overloads return
the handle bound to the view's device pointer, joint index and mode and to
`i`; the result is the same on every heap, so neither the size nor the joint
count is read; and the call is accepted also where `ObjectVector::selfAssert`
fails, as on a null device pointer or at an index outside the range. -/
theorem C16_objectVector_at_unchecked (v : ObjectVector) (heap : Heap) (i : Int) :
    v.at_ heap i = .ok (CollisionObject.ofJointGeom v.devicePtr v.jointIndex i v.inOutType) ∧
    v.at_const heap i
      = .ok (CollisionObject.ofJointGeom v.devicePtr v.jointIndex i v.inOutType) ∧
    (∀ heap2 : Heap, v.at_ heap2 i = v.at_ heap i ∧ v.at_const heap2 i = v.at_const heap i) ∧
    ObjectVector.atM i ⟨v, heap⟩
      = (.ok (CollisionObject.ofJointGeom v.devicePtr v.jointIndex i v.inOutType), ⟨v, heap⟩) ∧
    (ObjectVector.selfAssert ⟨none, 9, InOutType.INNER⟩ (constHeap (mkDevice 5 7 2 5)) (-1)
        = .error Abort.assertion ∧
      ObjectVector.at_ ⟨none, 9, InOutType.INNER⟩ (constHeap (mkDevice 5 7 2 5)) (-1)
        = .ok (CollisionObject.ofJointGeom none 9 (-1) InOutType.INNER)) ∧
    (ObjectVector.selfAssert ⟨some 0, 1, InOutType.OUTER⟩ (constHeap (mkDevice 5 7 2 5)) 5
        = .error Abort.assertion ∧
      ObjectVector.at_ ⟨some 0, 1, InOutType.OUTER⟩ (constHeap (mkDevice 5 7 2 5)) 5
        = .ok (CollisionObject.ofJointGeom (some 0) 1 5 InOutType.OUTER)) :=
  ⟨rfl, rfl, fun _ => ⟨rfl, rfl⟩, rfl, ⟨rfl, rfl⟩, ⟨rfl, rfl⟩⟩

/-- C17. For a valid device, `JointVector::size()` is non-negative if and
only if the joint count is at least 1. When the joint count is at most 1,
`at(i)` fails its assertion for every index, in both overloads; with no joint
at all `size()` and `iend()` are -1, below `ibegin()`, which is 0. -/
theorem C17_jointVector_degenerate_device (v : JointVector) (heap : Heap) (a : Nat)
    (hv : v.devicePtr = some a) :
    v.size heap = .ok ((heap a).model.njoint - 1) ∧
    (∀ n : Int, v.size heap = .ok n → (0 ≤ n ↔ 1 ≤ (heap a).model.njoint)) ∧
    ((heap a).model.njoint ≤ 1 → ∀ i : Int,
      v.at_ heap i = .error Abort.assertion ∧
      v.at_const heap i = .error Abort.assertion ∧
      accepted (v.at_ heap i) = false ∧
      accepted (v.at_const heap i) = false) ∧
    ((heap a).model.njoint = 0 →
      v.size heap = .ok (-1) ∧ v.iend heap = .ok (-1) ∧ v.ibegin heap = .ok 0 ∧
      ∀ b e : Int, v.ibegin heap = .ok b → v.iend heap = .ok e → e < b) := by
  have hsz : v.size heap = .ok ((heap a).model.njoint - 1) := by
    simp [JointVector.size, deref, hv, bind, Except.bind, pure, Except.pure]
  refine ⟨hsz, ?_, ?_, ?_⟩
  · intro n hn
    rw [hsz] at hn
    have e : (heap a).model.njoint - 1 = n := by
      injection hn
    omega
  · intro hn i
    have hs : v.selfAssert heap i = .error Abort.assertion := by
      apply jointVector_selfAssert_error
      rw [Ne, jointVector_selfAssert_ok_iff]
      rintro ⟨b, hb, h0, h1⟩
      rw [hv] at hb
      cases hb
      omega
    rw [jointVector_at_eq, jointVector_at_const_eq, hs]
    exact ⟨rfl, rfl, rfl, rfl⟩
  · intro hn
    have h1 : v.size heap = .ok (-1) := by
      rw [hsz, hn]
      rfl
    refine ⟨h1, h1, rfl, ?_⟩
    intro b e hb he
    have hb0 : (0 : Int) = b := by
      have h : (Except.ok 0 : Except Abort Int) = .ok b := hb
      injection h
    have he0 : (-1 : Int) = e := by
      have h : v.size heap = .ok e := he
      rw [h1] at h
      injection h
    omega

/-- C17, at the device of address 0 with the root joint only: `at(0)` fails
its assertion; with no joint at all `size()` is -1. -/
theorem C17_jointVector_degenerate_device_witness :
    JointVector.at_ ⟨some 0⟩ (constHeap (mkDevice 1 1 2 5)) 0 = .error Abort.assertion ∧
    JointVector.size ⟨some 0⟩ (constHeap (mkDevice 0 1 2 5)) = .ok (-1) :=
  ⟨((C17_jointVector_degenerate_device ⟨some 0⟩ (constHeap (mkDevice 1 1 2 5)) 0 rfl).2.2.1
      (by decide) 0).1,
   ((C17_jointVector_degenerate_device ⟨some 0⟩ (constHeap (mkDevice 0 1 2 5)) 0 rfl).2.2.2
      rfl).1⟩

/-- The check of the joint-scoped view passes exactly for a non-null device,
a joint index whose cast to `int` is below the joint count, and an index below
the size of the view. -/
theorem objectVector_selfAssert_ok_iff (v : ObjectVector) (heap : Heap) (i : Int) :
    v.selfAssert heap i = .ok () ↔
      ∃ (a : Nat) (n : Int), v.devicePtr = some a ∧
        toInt32 v.jointIndex < (heap a).model.njoint ∧ v.size heap = .ok n ∧ i < n := by
  rcases v with ⟨_ | a, j, m⟩
  · simp [ObjectVector.selfAssert, assert, bind, Except.bind]
  · by_cases hj : toInt32 j < (heap a).model.njoint
    · cases m
      · by_cases hi : i < (((heap a).geomModel.innerObjects j).length : Int) <;>
          simp [ObjectVector.selfAssert, ObjectVector.size, assert, deref, bind, Except.bind,
            pure, Except.pure, hj, hi]
      · by_cases hi : i < (((heap a).geomModel.outerObjects j).length : Int) <;>
          simp [ObjectVector.selfAssert, ObjectVector.size, assert, deref, bind, Except.bind,
            pure, Except.pure, hj, hi]
    · simp [ObjectVector.selfAssert, assert, deref, bind, Except.bind, pure, Except.pure, hj]

/-- The cast to `int` keeps every joint index below `2 ^ 31`. -/
theorem toInt32_of_lt (n : Nat) (h : n < 2 ^ 31) : toInt32 n = (n : Int) := by
  unfold toInt32
  omega

/-- C18. `JointVector::selfAssert(i)` fails its assertion for every negative
`i`, on every device pointer. `DeviceObjectVector::selfAssert(i)` tests the
device pointer and `i < size()` and nothing else, and
`ObjectVector::selfAssert(i)` tests the device pointer, the joint index (cast
to `int`) against the joint count, and `i < size()`, and nothing else; neither
has a lower bound, so on a valid device with a positive size (and, for
`ObjectVector`, a joint index that passes its test) they pass for every
negative `i`. -/
theorem C18_selfAssert_lower_bounds :
    (∀ (v : JointVector) (heap : Heap) (i : Int), i < 0 →
      v.selfAssert heap i = .error Abort.assertion) ∧
    (∀ (v : DeviceObjectVector) (heap : Heap) (i : Int),
      v.selfAssert heap i = .ok () ↔
        ∃ (a : Nat) (n : Int), v.devicePtr = some a ∧ v.size heap = .ok n ∧ i < n) ∧
    (∀ (v : ObjectVector) (heap : Heap) (i : Int),
      v.selfAssert heap i = .ok () ↔
        ∃ (a : Nat) (n : Int), v.devicePtr = some a ∧
          toInt32 v.jointIndex < (heap a).model.njoint ∧ v.size heap = .ok n ∧ i < n) ∧
    (∀ (v : DeviceObjectVector) (heap : Heap) (a : Nat) (n i : Int),
      v.devicePtr = some a → v.size heap = .ok n → 0 < n → i < 0 →
      v.selfAssert heap i = .ok ()) ∧
    (∀ (v : ObjectVector) (heap : Heap) (a : Nat) (n i : Int),
      v.devicePtr = some a → toInt32 v.jointIndex < (heap a).model.njoint →
      v.size heap = .ok n → 0 < n → i < 0 →
      v.selfAssert heap i = .ok ()) ∧
    (∀ (v : ObjectVector) (heap : Heap) (a : Nat), v.jointIndex < 2 ^ 31 →
      (toInt32 v.jointIndex < (heap a).model.njoint ↔
        (v.jointIndex : Int) < (heap a).model.njoint)) := by
  have hdev : ∀ (v : DeviceObjectVector) (heap : Heap) (i : Int),
      v.selfAssert heap i = .ok () ↔
        ∃ (a : Nat) (n : Int), v.devicePtr = some a ∧ v.size heap = .ok n ∧ i < n := by
    intro v heap i
    rw [deviceObjectVector_selfAssert_ok_iff]
    constructor
    · rintro ⟨a, ha, h⟩
      exact ⟨a, _, ha, deviceObjectVector_size_eq v heap a ha, h⟩
    · rintro ⟨a, n, ha, hn, h⟩
      rw [deviceObjectVector_size_eq v heap a ha] at hn
      have e : ((heap a).geomModel.ngeoms : Int) = n := by
        injection hn
      exact ⟨a, ha, by omega⟩
  refine ⟨?_, hdev, objectVector_selfAssert_ok_iff, ?_, ?_, ?_⟩
  · intro v heap i hi
    apply jointVector_selfAssert_error
    rw [Ne, jointVector_selfAssert_ok_iff]
    rintro ⟨_, _, h0, _⟩
    omega
  · intro v heap a n i ha hn h0 hi
    exact (hdev v heap i).2 ⟨a, n, ha, hn, by omega⟩
  · intro v heap a n i ha hj hn h0 hi
    exact (objectVector_selfAssert_ok_iff v heap i).2 ⟨a, n, ha, hj, hn, by omega⟩
  · intro v heap a hlt
    rw [toInt32_of_lt v.jointIndex hlt]

/-- C18, at the index -1: the joint view's helper fails on a device with 5
joints, while the device view's helper passes on a device with 7 geometries
and the joint-scoped view's helper passes on joint 1 of 5, which has 2 inner
geometries. -/
theorem C18_selfAssert_lower_bounds_witness :
    JointVector.selfAssert ⟨some 0⟩ (constHeap (mkDevice 5 7 2 5)) (-1)
      = .error Abort.assertion ∧
    DeviceObjectVector.selfAssert ⟨some 0⟩ (constHeap (mkDevice 5 7 2 5)) (-1) = .ok () ∧
    ObjectVector.selfAssert ⟨some 0, 1, InOutType.INNER⟩ (constHeap (mkDevice 5 7 2 5)) (-1)
      = .ok () :=
  ⟨C18_selfAssert_lower_bounds.1 ⟨some 0⟩ (constHeap (mkDevice 5 7 2 5)) (-1) (by decide),
   C18_selfAssert_lower_bounds.2.2.2.1 ⟨some 0⟩ (constHeap (mkDevice 5 7 2 5)) 0 7 (-1) rfl rfl
     (by decide) (by decide),
   C18_selfAssert_lower_bounds.2.2.2.2.1 ⟨some 0, 1, InOutType.INNER⟩
     (constHeap (mkDevice 5 7 2 5)) 0 2 (-1) rfl (by decide) rfl (by decide) (by decide)⟩

end hpp.pinocchio
